import Mathlib

/-!
Verification of the quant-arbitrage math engine
(`ultra-fast-arbitrage-engine/native/src/math.rs` and its `lib.rs` wrapper).

Embedding conventions:
* `f64` values are embedded as exact rationals `ℚ`; the verified claims are
  sign, clamping, ordering and control-flow properties that do not depend on
  floating-point rounding.  Division by zero in `ℚ` yields `0`, and every
  place where the source can divide by zero is noted at its definition.
* Decimal literals of the source are read exactly: `0.997 = 997/1000`,
  `0.0001 = 1/10000`, `0.3 = 3/10`, and so on.
* The bounded `for` loops of the source become structural recursion on the
  remaining iteration count, carrying the loop state (`low`/`high`/`best`)
  exactly as the source mutates it.
* `f64::powf`, used only by the Balancer formula, has no rational
  counterpart and is passed as an explicit function parameter; no verified
  property depends on its values.
-/

/-- `compute_uniswap_v2_slippage` from `math.rs`: constant-product slippage with
a 0.3% fee and a final clamp to `≥ 0`. -/
def compute_uniswap_v2_slippage (reserve_in reserve_out amount_in : ℚ) : ℚ :=
  if amount_in = 0 then 0
  else
    let amount_in_with_fee := amount_in * (997/1000)
    let amount_out := amount_in_with_fee * reserve_out / (reserve_in + amount_in_with_fee)
    let expected_amount_out := amount_in / reserve_in * reserve_out
    max ((expected_amount_out - amount_out) / expected_amount_out * 100) 0

/-- `compute_uniswap_v3_slippage` from `math.rs`: simplified concentrated
liquidity, guarded on `amount_in == 0` and `liquidity == 0`. -/
def compute_uniswap_v3_slippage (liquidity sqrt_price amount_in : ℚ) : ℚ :=
  if amount_in = 0 ∨ liquidity = 0 then 0
  else
    let amount_out := amount_in * sqrt_price * liquidity / (liquidity + amount_in)
    let expected_amount_out := amount_in * sqrt_price
    max ((expected_amount_out - amount_out) / expected_amount_out * 100) 0

/-- `compute_curve_slippage` from `math.rs`: blend of constant-sum and
constant-product outputs weighted by `amplification / (amplification + 100)`.
Division-by-zero note: when `balance_out = 0` (and `amount_in ≠ 0`) the source
divides the nonzero blended output by `expected_amount_out = 0`, which in f64
produces an infinite slippage (positive when the blended output is negative,
e.g. at `(10, 0, 1, -50)`), while this ℚ model yields `0`; accordingly no
property about the `balance_out = 0` case is asserted of this function.  The
remaining zero-parameter paths (`balance_in = 0`) agree with the f64 code,
whose NaN and `-inf` intermediates are absorbed by the final `max` clamp. -/
def compute_curve_slippage (balance_in balance_out amount_in amplification : ℚ) : ℚ :=
  if amount_in = 0 then 0
  else
    let amount_in_with_fee := amount_in * (9996/10000)
    let total_liquidity := balance_in + balance_out
    let constant_sum_out := total_liquidity * amount_in_with_fee / (balance_in + balance_out)
    let constant_product_out := amount_in_with_fee * balance_out / (balance_in + amount_in_with_fee)
    let amp_weight := amplification / (amplification + 100)
    let amount_out := constant_sum_out * amp_weight + constant_product_out * (1 - amp_weight)
    let expected_amount_out := amount_in * (balance_out / balance_in)
    max ((expected_amount_out - amount_out) / expected_amount_out * 100) 0

/-- `compute_balancer_slippage` from `math.rs`.  The real-valued power function
`f64::powf` is taken as the parameter ` powf`; no verified property depends on
its values. -/
def compute_balancer_slippage (powf : ℚ → ℚ → ℚ)
    (balance_in balance_out weight_in weight_out amount_in : ℚ) : ℚ :=
  if amount_in = 0 then 0
  else
    let base := balance_in / (balance_in + amount_in)
    let exponent := weight_in / weight_out
    let amount_out := balance_out * (1 - powf base exponent)
    let expected_amount_out := amount_in * (balance_out / balance_in)
    max ((expected_amount_out - amount_out) / expected_amount_out * 100) 0

/-- Net profit evaluated inside the `optimal_trade_size` loop of `math.rs`:
fee-adjusted constant-product output minus the trade size minus gas. -/
def tradeProfit (reserve_in reserve_out gas_cost size : ℚ) : ℚ :=
  size * (997/1000) * reserve_out / (reserve_in + size * (997/1000)) - size - gas_cost

/-- The bounded bisection loop of `optimal_trade_size` in `math.rs`: per
iteration, if profit at the midpoint reaches `min_profit` then record the
midpoint and move `low` up, otherwise move `high` down; stop when the bracket
is narrower than `0.0001` or the iteration budget is exhausted. -/
def otsGo (reserve_in reserve_out gas_cost min_profit : ℚ) : Nat → ℚ → ℚ → ℚ → ℚ
  | 0, _, _, best_size => best_size
  | n+1, low, high, best_size =>
    let mid := (low + high) / 2
    let profit := tradeProfit reserve_in reserve_out gas_cost mid
    let best2 := if min_profit ≤ profit then mid else best_size
    let low2 := if min_profit ≤ profit then mid else low
    let high2 := if min_profit ≤ profit then high else mid
    if high2 - low2 < 1/10000 then best2
    else otsGo reserve_in reserve_out gas_cost min_profit n low2 high2 best2

/-- `optimal_trade_size` from `math.rs`: 50-iteration bisection over
`[0, reserve_in * 0.1]`, returning the last recorded size (initially `0`). -/
def optimal_trade_size (reserve_in reserve_out gas_cost min_profit : ℚ) : ℚ :=
  if reserve_in ≤ 0 ∨ reserve_out ≤ 0 then 0
  else otsGo reserve_in reserve_out gas_cost min_profit 50 0 (reserve_in * (1/10)) 0

/-- Net profit evaluated inside the `calculate_flashloan_amount` loop of
`math.rs`: buy leg, then sell leg, minus flashloan repayment and gas. -/
def flashloanProfit (reserve_in_buy reserve_out_buy reserve_in_sell reserve_out_sell
    flashloan_fee gas_cost mid : ℚ) : ℚ :=
  let amount_in_with_fee := mid * (997/1000)
  let amount_out_buy := amount_in_with_fee * reserve_out_buy / (reserve_in_buy + amount_in_with_fee)
  let amount_in_sell := amount_out_buy * (997/1000)
  let amount_out_sell := amount_in_sell * reserve_out_sell / (reserve_in_sell + amount_in_sell)
  amount_out_sell - mid * (1 + flashloan_fee) - gas_cost

/-- The 100-iteration bisection loop shared verbatim by
`calculate_flashloan_amount` and `calculate_flashloan_amount_v3` in `math.rs`
(they differ only in the profit formula `profitAt`): record `(mid, profit)`
when profit strictly improves, move `low` up while profit is positive, stop
when the bracket is narrower than `0.01`. -/
def bisectBestGo (profitAt : ℚ → ℚ) : Nat → ℚ → ℚ → ℚ → ℚ → ℚ × ℚ
  | 0, _, _, best_amount, best_profit => (best_amount, best_profit)
  | n+1, low, high, best_amount, best_profit =>
    let mid := (low + high) / 2
    let profit := profitAt mid
    let best_amount2 := if best_profit < profit then mid else best_amount
    let best_profit2 := if best_profit < profit then profit else best_profit
    let low2 := if 0 < profit then mid else low
    let high2 := if 0 < profit then high else mid
    if high2 - low2 < 1/100 then (best_amount2, best_profit2)
    else bisectBestGo profitAt n low2 high2 best_amount2 best_profit2

/-- `calculate_flashloan_amount` from `math.rs`: guard non-positive reserves,
bisect over `[0, min(reserve_in_buy, reserve_in_sell) * 0.3]`, and return the
best amount only if its recorded profit is positive. -/
def calculate_flashloan_amount (reserve_in_buy reserve_out_buy reserve_in_sell reserve_out_sell
    flashloan_fee gas_cost : ℚ) : ℚ :=
  if reserve_in_buy ≤ 0 ∨ reserve_out_buy ≤ 0 ∨ reserve_in_sell ≤ 0 ∨ reserve_out_sell ≤ 0 then 0
  else
    let max_flashloan := min (reserve_in_buy * (3/10)) (reserve_in_sell * (3/10))
    let r := bisectBestGo
      (flashloanProfit reserve_in_buy reserve_out_buy reserve_in_sell reserve_out_sell
        flashloan_fee gas_cost) 100 0 max_flashloan 0 0
    if 0 < r.2 then r.1 else 0

/-- Net profit evaluated inside the `calculate_flashloan_amount_v3` loop of
`math.rs`, using the simplified concentrated-liquidity output for both legs. -/
def flashloanProfitV3 (liquidity sqrt_price_buy sqrt_price_sell flashloan_fee gas_cost mid : ℚ) : ℚ :=
  let amount_out_buy := mid * sqrt_price_buy * liquidity / (liquidity + mid)
  let amount_out_sell := amount_out_buy * sqrt_price_sell * liquidity / (liquidity + amount_out_buy)
  amount_out_sell - mid * (1 + flashloan_fee) - gas_cost

/-- `calculate_flashloan_amount_v3` from `math.rs`: guard non-positive
parameters, bisect over `[0, liquidity * 0.3]`, and return the best amount
only if its recorded profit is positive. -/
def calculate_flashloan_amount_v3 (liquidity sqrt_price_buy sqrt_price_sell
    flashloan_fee gas_cost : ℚ) : ℚ :=
  if liquidity ≤ 0 ∨ sqrt_price_buy ≤ 0 ∨ sqrt_price_sell ≤ 0 then 0
  else
    let r := bisectBestGo
      (flashloanProfitV3 liquidity sqrt_price_buy sqrt_price_sell flashloan_fee gas_cost)
      100 0 (liquidity * (3/10)) 0 0
    if 0 < r.2 then r.1 else 0

/-- The hop loop of `calculate_multihop_slippage` in `math.rs`: an invalid pool
returns the sentinel `100` immediately; otherwise the hop slippage is added to
the running total and the fee-adjusted output feeds the next hop. -/
def multihopGo : List (ℚ × ℚ) → ℚ → ℚ → ℚ
  | [], _, total_slippage => total_slippage
  | (reserve_in, reserve_out) :: rest, current_amount, total_slippage =>
    if reserve_in ≤ 0 ∨ reserve_out ≤ 0 then 100
    else
      let hop_slippage := compute_uniswap_v2_slippage reserve_in reserve_out current_amount
      let amount_in_with_fee := current_amount * (997/1000)
      multihopGo rest (amount_in_with_fee * reserve_out / (reserve_in + amount_in_with_fee))
        (total_slippage + hop_slippage)

/-- `calculate_multihop_slippage` from `math.rs`. -/
def calculate_multihop_slippage (reserves : List (ℚ × ℚ)) (flashloan_amount : ℚ) : ℚ :=
  if reserves = [] ∨ flashloan_amount ≤ 0 then 0
  else multihopGo reserves flashloan_amount 0

/-- The per-path output computation of `simulate_parallel_flashloan_paths` in
`math.rs`: thread the amount through every hop with the fee-adjusted
constant-product formula. -/
def pathOutput (flashloan_amount : ℚ) (path : List (ℚ × ℚ)) : ℚ :=
  path.foldl (fun current_amount rr =>
    current_amount * (997/1000) * rr.2 / (rr.1 + current_amount * (997/1000))) flashloan_amount

/-- One result entry of `simulate_parallel_flashloan_paths` in `math.rs`: an
empty path or non-positive amount yields `(0, 0, idx)`, otherwise the profit
after repayment and gas together with the multi-hop slippage. -/
def pathTriple (path : List (ℚ × ℚ)) (flashloan_amount flashloan_fee gas_cost : ℚ)
    (idx : Nat) : ℚ × ℚ × Nat :=
  if path = [] ∨ flashloan_amount ≤ 0 then (0, 0, idx)
  else
    (pathOutput flashloan_amount path - flashloan_amount * (1 + flashloan_fee) - gas_cost,
     calculate_multihop_slippage path flashloan_amount, idx)

/-- The enumeration loop of `simulate_parallel_flashloan_paths` in `math.rs`:
it stops (`break`) as soon as the current index has no corresponding flashloan
amount or gas entry. -/
def simGo (flashloan_fee : ℚ) : Nat → List (List (ℚ × ℚ)) → List ℚ → List ℚ → List (ℚ × ℚ × Nat)
  | _, [], _, _ => []
  | _, _ :: _, [], _ => []
  | _, _ :: _, _, [] => []
  | idx, path :: paths, amount :: amounts, gas :: gases =>
    pathTriple path amount flashloan_fee gas idx :: simGo flashloan_fee (idx+1) paths amounts gases

/-- `simulate_parallel_flashloan_paths` from `math.rs`. -/
def simulate_parallel_flashloan_paths (paths : List (List (ℚ × ℚ))) (flashloan_amounts : List ℚ)
    (flashloan_fee : ℚ) (gas_costs : List ℚ) : List (ℚ × ℚ × Nat) :=
  simGo flashloan_fee 0 paths flashloan_amounts gas_costs

/-- `calculate_pool_price` from `math.rs`: spot price `reserve_out / reserve_in`,
zero for a non-positive input reserve. -/
def calculate_pool_price (reserve_in reserve_out : ℚ) : ℚ :=
  if reserve_in ≤ 0 then 0 else reserve_out / reserve_in

/-- `identify_arbitrage_opportunity` from `math.rs`: returns
`(has_opportunity, price_diff_pct, direction)` with direction `1` meaning buy
pool 1 and sell pool 2, and `2` the converse. -/
def identify_arbitrage_opportunity (pool1_reserve_in pool1_reserve_out
    pool2_reserve_in pool2_reserve_out min_price_diff_pct : ℚ) : Bool × ℚ × Nat :=
  let price1 := calculate_pool_price pool1_reserve_in pool1_reserve_out
  let price2 := calculate_pool_price pool2_reserve_in pool2_reserve_out
  if price1 ≤ 0 ∨ price2 ≤ 0 then (false, 0, 0)
  else
    let price_diff := |price1 - price2| / min price1 price2 * 100
    if min_price_diff_pct ≤ price_diff then
      if price1 < price2 then (true, price_diff, 1) else (true, price_diff, 2)
    else (false, price_diff, 0)

/-- `calculate_amount_out` from `math.rs`: integer-scaled constant-product
output formula with defensive guards. -/
def calculate_amount_out (reserve_in reserve_out amount_in : ℚ) : ℚ :=
  if amount_in ≤ 0 then 0
  else
    let numerator := reserve_out * amount_in * 997
    let denominator := reserve_in * 1000 + amount_in * 997
    if denominator ≤ 0 then 0 else numerator / denominator

/-- `estimate_arbitrage_profit` from `math.rs`: sell-leg output minus
flashloan repayment minus gas. -/
def estimate_arbitrage_profit (buy_reserve_in buy_reserve_out sell_reserve_in sell_reserve_out
    amount_in gas_cost flashloan_fee_pct : ℚ) : ℚ :=
  let amount_out_buy := calculate_amount_out buy_reserve_in buy_reserve_out amount_in
  let amount_out_sell := calculate_amount_out sell_reserve_in sell_reserve_out amount_out_buy
  amount_out_sell - amount_in * (1 + flashloan_fee_pct) - gas_cost

/-- The 100-point linear scan of `optimize_trade_size_quadratic` in `math.rs`:
evaluate net profit at `i/100` of the size cap for `i = 0, …, 99`, tracking the
strict maximizer; non-positive sample points are skipped (`continue`). -/
def otsqGo (buy_reserve_in buy_reserve_out sell_reserve_in sell_reserve_out
    gas_cost flashloan_fee_pct max_amount : ℚ) : Nat → Nat → ℚ → ℚ → ℚ
  | 0, _, best_size, _ => best_size
  | fuel+1, i, best_size, best_profit =>
    let amount := (i : ℚ) / 100 * max_amount
    if amount ≤ 0 then
      otsqGo buy_reserve_in buy_reserve_out sell_reserve_in sell_reserve_out
        gas_cost flashloan_fee_pct max_amount fuel (i+1) best_size best_profit
    else
      let profit := estimate_arbitrage_profit buy_reserve_in buy_reserve_out
        sell_reserve_in sell_reserve_out amount gas_cost flashloan_fee_pct
      if best_profit < profit then
        otsqGo buy_reserve_in buy_reserve_out sell_reserve_in sell_reserve_out
          gas_cost flashloan_fee_pct max_amount fuel (i+1) amount profit
      else
        otsqGo buy_reserve_in buy_reserve_out sell_reserve_in sell_reserve_out
          gas_cost flashloan_fee_pct max_amount fuel (i+1) best_size best_profit

/-- `optimize_trade_size_quadratic` from `math.rs`: linear scan over
`[0, min(buy_reserve_in, sell_reserve_in) * 0.3]`. -/
def optimize_trade_size_quadratic (buy_reserve_in buy_reserve_out sell_reserve_in sell_reserve_out
    gas_cost flashloan_fee_pct : ℚ) : ℚ :=
  otsqGo buy_reserve_in buy_reserve_out sell_reserve_in sell_reserve_out gas_cost flashloan_fee_pct
    (min (buy_reserve_in * (3/10)) (sell_reserve_in * (3/10))) 100 0 0 0

/-- Consecutive sample pairs `(samples[i], samples[i+1])` iterated by the
`calculate_twap` loop in `math.rs`. -/
def twapSteps (price_samples : List (ℚ × ℚ)) : List ((ℚ × ℚ) × ℚ × ℚ) :=
  price_samples.zip price_samples.tail

/-- Time difference `t2 - t1` of one consecutive sample pair. -/
def stepDiff (s : (ℚ × ℚ) × ℚ × ℚ) : ℚ := s.2.1 - s.1.1

/-- The consecutive pairs that `calculate_twap` actually accumulates: those
with a strictly positive time difference. -/
def posSteps (price_samples : List (ℚ × ℚ)) : List ((ℚ × ℚ) × ℚ × ℚ) :=
  (twapSteps price_samples).filter (fun s => decide (0 < stepDiff s))

/-- Sum of `price * Δt` over a list of consecutive pairs. -/
def twapWeightedSum (steps : List ((ℚ × ℚ) × ℚ × ℚ)) : ℚ :=
  steps.foldl (fun acc s => acc + s.1.2 * stepDiff s) 0

/-- Sum of `Δt` over a list of consecutive pairs. -/
def twapTotalTime (steps : List ((ℚ × ℚ) × ℚ × ℚ)) : ℚ :=
  steps.foldl (fun acc s => acc + stepDiff s) 0

/-- `calculate_twap` from `math.rs`: left-sample price weighted by the interval
to the next sample, counting only pairs with positive time difference. -/
def calculate_twap (price_samples : List (ℚ × ℚ)) : ℚ :=
  if price_samples.length < 2 then 0
  else
    let weighted_sum := (twapSteps price_samples).foldl
      (fun acc s => if 0 < stepDiff s then acc + s.1.2 * stepDiff s else acc) 0
    let total_time := (twapSteps price_samples).foldl
      (fun acc s => if 0 < stepDiff s then acc + stepDiff s else acc) 0
    if 0 < total_time then weighted_sum / total_time else 0

/-- `validate_with_twap` from `math.rs`: fail closed on a non-positive
reference, otherwise accept when the relative deviation is within the bound. -/
def validate_with_twap (current_price twap max_deviation_pct : ℚ) : Bool :=
  if twap ≤ 0 then false
  else decide (|current_price - twap| / twap * 100 ≤ max_deviation_pct)

/-- `ArbitrageConfig` from `math.rs`. -/
structure ArbitrageConfig where
  gas_cost : ℚ
  flashloan_fee_pct : ℚ
  min_price_diff_pct : ℚ
  max_twap_deviation_pct : ℚ
  min_profit_threshold : ℚ

/-- `execute_arbitrage_flow` from `math.rs`: detect, validate against TWAP,
optimize, estimate, gate. -/
def execute_arbitrage_flow (pool1_reserve_in pool1_reserve_out
    pool2_reserve_in pool2_reserve_out : ℚ)
    (price_samples_pool1 price_samples_pool2 : List (ℚ × ℚ))
    (config : ArbitrageConfig) : Bool × ℚ × ℚ :=
  let ido := identify_arbitrage_opportunity pool1_reserve_in pool1_reserve_out
    pool2_reserve_in pool2_reserve_out config.min_price_diff_pct
  if ido.1 = false then (false, 0, 0)
  else
    let buy_res_in := if ido.2.2 = 1 then pool1_reserve_in else pool2_reserve_in
    let buy_res_out := if ido.2.2 = 1 then pool1_reserve_out else pool2_reserve_out
    let sell_res_in := if ido.2.2 = 1 then pool2_reserve_in else pool1_reserve_in
    let sell_res_out := if ido.2.2 = 1 then pool2_reserve_out else pool1_reserve_out
    let price_samples := if ido.2.2 = 1 then price_samples_pool1 else price_samples_pool2
    let current_price := calculate_pool_price buy_res_in buy_res_out
    let twap := calculate_twap price_samples
    if validate_with_twap current_price twap config.max_twap_deviation_pct = false then (false, 0, 0)
    else
      let optimal_amount := optimize_trade_size_quadratic buy_res_in buy_res_out
        sell_res_in sell_res_out config.gas_cost config.flashloan_fee_pct
      if optimal_amount ≤ 0 then (false, 0, 0)
      else
        let expected_profit := estimate_arbitrage_profit buy_res_in buy_res_out
          sell_res_in sell_res_out optimal_amount config.gas_cost config.flashloan_fee_pct
        (decide (config.min_profit_threshold ≤ expected_profit), optimal_amount, expected_profit)

/-- Modelled from the spec: the body of `math::batch_evaluate_opportunities` is
missing from the sources (only its caller in `lib.rs` appears).  Per the spec,
the batch evaluator applies the gate logic of `execute_arbitrage_flow`, minus
the TWAP validation step, to one 4-tuple of pool reserves. -/
def evaluate_opportunity_no_twap (pool1_reserve_in pool1_reserve_out
    pool2_reserve_in pool2_reserve_out : ℚ) (config : ArbitrageConfig) : Bool × ℚ × ℚ :=
  let ido := identify_arbitrage_opportunity pool1_reserve_in pool1_reserve_out
    pool2_reserve_in pool2_reserve_out config.min_price_diff_pct
  if ido.1 = false then (false, 0, 0)
  else
    let buy_res_in := if ido.2.2 = 1 then pool1_reserve_in else pool2_reserve_in
    let buy_res_out := if ido.2.2 = 1 then pool1_reserve_out else pool2_reserve_out
    let sell_res_in := if ido.2.2 = 1 then pool2_reserve_in else pool1_reserve_in
    let sell_res_out := if ido.2.2 = 1 then pool2_reserve_out else pool1_reserve_out
    let optimal_amount := optimize_trade_size_quadratic buy_res_in buy_res_out
      sell_res_in sell_res_out config.gas_cost config.flashloan_fee_pct
    if optimal_amount ≤ 0 then (false, 0, 0)
    else
      let expected_profit := estimate_arbitrage_profit buy_res_in buy_res_out
        sell_res_in sell_res_out optimal_amount config.gas_cost config.flashloan_fee_pct
      (decide (config.min_profit_threshold ≤ expected_profit), optimal_amount, expected_profit)

/-- Modelled from the spec: `math::batch_evaluate_opportunities` maps the
TWAP-free gate logic over the list of 4-tuples, one result per input, in
order. -/
def batch_evaluate_opportunities_math (opportunities : List (ℚ × ℚ × ℚ × ℚ))
    (config : ArbitrageConfig) : List (Bool × ℚ × ℚ) :=
  opportunities.map (fun o => evaluate_opportunity_no_twap o.1 o.2.1 o.2.2.1 o.2.2.2 config)

/-- The input conversion of the `batch_evaluate_opportunities` wrapper in
`lib.rs`: keep rows of length at least 4 and read their first four entries. -/
def oppTuples (opportunities : List (List ℚ)) : List (ℚ × ℚ × ℚ × ℚ) :=
  opportunities.filterMap (fun opp =>
    if 4 ≤ opp.length then some (opp.getD 0 0, opp.getD 1 0, opp.getD 2 0, opp.getD 3 0) else none)

/-- The output conversion of the `batch_evaluate_opportunities` wrapper in
`lib.rs`: `(should_execute, optimal_amount, profit)` as a numeric row. -/
def tripleToVec (r : Bool × ℚ × ℚ) : List ℚ :=
  [if r.1 = true then 1 else 0, r.2.1, r.2.2]

/-- `batch_evaluate_opportunities` from `lib.rs`. -/
def batch_evaluate_opportunities (opportunities : List (List ℚ))
    (config : ArbitrageConfig) : List (List ℚ) :=
  (batch_evaluate_opportunities_math (oppTuples opportunities) config).map tripleToVec

/-! ### Shared helper lemmas -/

theorem foldl_if_eq_foldl_filter {α β : Type} (p : α → Prop) [DecidablePred p]
    (f : β → α → β) : ∀ (l : List α) (init : β),
    l.foldl (fun acc x => if p x then f acc x else acc) init
      = (l.filter (fun x => decide (p x))).foldl f init := by
  intro l
  induction l with
  | nil => intro init; rfl
  | cons x xs ih =>
    intro init
    by_cases hx : p x
    · simp [List.filter_cons, hx, ih]
    · simp [List.filter_cons, hx, ih]


/-! ### Claim C3 -/

/-- Counterexample to claim C3: a negative reserve is a non-positive pool
parameter, yet `compute_uniswap_v2_slippage` with `reserve_out = -100` and a
positive `amount_in` returns a nonzero (positive) slippage instead of `0`. -/
theorem claim_C3_counterexample :
    ((-100 : ℚ) ≤ 0 ∧ (10 : ℚ) ≠ 0) ∧
    compute_uniswap_v2_slippage 100 (-100) 10 = 102700/10997 ∧
    compute_uniswap_v2_slippage 100 (-100) 10 ≠ 0 := by
  refine ⟨⟨by norm_num, by norm_num⟩, ?_, ?_⟩ <;> norm_num [compute_uniswap_v2_slippage]

/-- Claim C3, amended: every pricing primitive returns `0` when `amount_in = 0`;
a zero reserve, liquidity or balance parameter yields `0` for the V2, V3 and
Balancer primitives, and for Curve when `balance_in` is zero (negative
parameters, non-positive weights, and Curve with zero `balance_out` — where
the source's f64 arithmetic can produce an unbounded slippage — are not
covered by the zero guarantee). -/
theorem claim_C3 :
    (∀ reserve_in reserve_out : ℚ, compute_uniswap_v2_slippage reserve_in reserve_out 0 = 0)
    ∧ (∀ reserve_out amount_in : ℚ, compute_uniswap_v2_slippage 0 reserve_out amount_in = 0)
    ∧ (∀ reserve_in amount_in : ℚ, compute_uniswap_v2_slippage reserve_in 0 amount_in = 0)
    ∧ (∀ liquidity sqrt_price : ℚ, compute_uniswap_v3_slippage liquidity sqrt_price 0 = 0)
    ∧ (∀ sqrt_price amount_in : ℚ, compute_uniswap_v3_slippage 0 sqrt_price amount_in = 0)
    ∧ (∀ balance_in balance_out amplification : ℚ,
        compute_curve_slippage balance_in balance_out 0 amplification = 0)
    ∧ (∀ balance_out amount_in amplification : ℚ,
        compute_curve_slippage 0 balance_out amount_in amplification = 0)
    ∧ (∀ (powf : ℚ → ℚ → ℚ) (balance_in balance_out weight_in weight_out : ℚ),
        compute_balancer_slippage powf balance_in balance_out weight_in weight_out 0 = 0)
    ∧ (∀ (powf : ℚ → ℚ → ℚ) (balance_out weight_in weight_out amount_in : ℚ),
        compute_balancer_slippage powf 0 balance_out weight_in weight_out amount_in = 0)
    ∧ (∀ (powf : ℚ → ℚ → ℚ) (balance_in weight_in weight_out amount_in : ℚ),
        compute_balancer_slippage powf balance_in 0 weight_in weight_out amount_in = 0) := by
  refine ⟨?_, ?_, ?_, ?_, ?_, ?_, ?_, ?_, ?_, ?_⟩
  · intro rin rout
    simp [compute_uniswap_v2_slippage]
  · intro rout a
    by_cases h : a = 0 <;>
      simp [compute_uniswap_v2_slippage, h, div_zero, zero_div, zero_mul]
  · intro rin a
    by_cases h : a = 0 <;>
      simp [compute_uniswap_v2_slippage, h, div_zero, zero_div, mul_zero, zero_mul]
  · intro L sp
    simp [compute_uniswap_v3_slippage]
  · intro sp a
    by_cases h : a = 0 <;> simp [compute_uniswap_v3_slippage, h]
  · intro bi bo amp
    simp [compute_curve_slippage]
  · intro bo a amp
    by_cases h : a = 0 <;>
      simp [compute_curve_slippage, h, div_zero, zero_div, zero_mul, mul_zero]
  · intro powf bi bo wi wo
    simp [compute_balancer_slippage]
  · intro powf bo wi wo a
    by_cases h : a = 0 <;>
      simp [compute_balancer_slippage, h, div_zero, zero_div, zero_mul, mul_zero]
  · intro powf bi wi wo a
    by_cases h : a = 0 <;>
      simp [compute_balancer_slippage, h, div_zero, zero_div, zero_mul, mul_zero]

/-! ### Claim C4 -/

/-- Claim C4: for positive pool parameters and positive `amount_in`, each of the
four slippage primitives is non-negative (the favorable case is clamped to 0). -/
theorem claim_C4 :
    (∀ reserve_in reserve_out amount_in : ℚ, 0 < reserve_in → 0 < reserve_out → 0 < amount_in →
        0 ≤ compute_uniswap_v2_slippage reserve_in reserve_out amount_in)
    ∧ (∀ liquidity sqrt_price amount_in : ℚ, 0 < liquidity → 0 < sqrt_price → 0 < amount_in →
        0 ≤ compute_uniswap_v3_slippage liquidity sqrt_price amount_in)
    ∧ (∀ balance_in balance_out amount_in amplification : ℚ,
        0 < balance_in → 0 < balance_out → 0 < amplification → 0 < amount_in →
        0 ≤ compute_curve_slippage balance_in balance_out amount_in amplification)
    ∧ (∀ (powf : ℚ → ℚ → ℚ) (balance_in balance_out weight_in weight_out amount_in : ℚ),
        0 < balance_in → 0 < balance_out → 0 < weight_in → 0 < weight_out → 0 < amount_in →
        0 ≤ compute_balancer_slippage powf balance_in balance_out weight_in weight_out amount_in) := by
  refine ⟨?_, ?_, ?_, ?_⟩
  · intro rin rout a _ _ _
    unfold compute_uniswap_v2_slippage
    split
    · exact le_rfl
    · exact le_max_right _ 0
  · intro L sp a _ _ _
    unfold compute_uniswap_v3_slippage
    split
    · exact le_rfl
    · exact le_max_right _ 0
  · intro bi bo a amp _ _ _ _
    unfold compute_curve_slippage
    split
    · exact le_rfl
    · exact le_max_right _ 0
  · intro powf bi bo wi wo a _ _ _ _ _
    unfold compute_balancer_slippage
    split
    · exact le_rfl
    · exact le_max_right _ 0

/-- Witness for claim C4 at concrete positive inputs. -/
theorem claim_C4_witness :
    ((0:ℚ) < 100 ∧ (0:ℚ) < 200 ∧ (0:ℚ) < 10 ∧ (0:ℚ) < 50 ∧ (0:ℚ) < 1 ∧ (0:ℚ) < 2)
    ∧ 0 ≤ compute_uniswap_v2_slippage 100 200 10
    ∧ 0 ≤ compute_uniswap_v3_slippage 100 2 10
    ∧ 0 ≤ compute_curve_slippage 100 200 10 50
    ∧ 0 ≤ compute_balancer_slippage (fun _ _ => 1) 100 200 1 2 10 :=
  ⟨⟨by norm_num, by norm_num, by norm_num, by norm_num, by norm_num, by norm_num⟩,
    claim_C4.1 100 200 10 (by norm_num) (by norm_num) (by norm_num),
    claim_C4.2.1 100 2 10 (by norm_num) (by norm_num) (by norm_num),
    claim_C4.2.2.1 100 200 10 50 (by norm_num) (by norm_num) (by norm_num) (by norm_num),
    claim_C4.2.2.2 (fun _ _ => 1) 100 200 1 2 10 (by norm_num) (by norm_num) (by norm_num)
      (by norm_num) (by norm_num)⟩

/-! ### Claim C7 -/

/-- Claim C7: `validate_with_twap` accepts exactly when the reference is
positive and the relative deviation is within the bound, and behaves as
specified on the two concrete examples. -/
theorem claim_C7 :
    (∀ current_price twap max_deviation_pct : ℚ,
      validate_with_twap current_price twap max_deviation_pct = true ↔
        (0 < twap ∧ |current_price - twap| / twap * 100 ≤ max_deviation_pct))
    ∧ validate_with_twap 102 100 5 = true
    ∧ validate_with_twap 110 100 5 = false := by
  refine ⟨?_, ?_, ?_⟩
  · intro c t m
    unfold validate_with_twap
    by_cases h : t ≤ 0
    · simp [h, not_lt.mpr h]
    · simp [h, not_lt.mp (fun hlt => h (le_of_lt hlt)), lt_of_not_le h]
  · have h2 : |(102:ℚ) - 100| = 2 := by norm_num
    norm_num [validate_with_twap, h2]
  · have h10 : |(110:ℚ) - 100| = 10 := by norm_num
    norm_num [validate_with_twap, h10]

/-! ### Claim C5 -/

theorem multihopGo_invalid : ∀ (reserves : List (ℚ × ℚ)) (amount total : ℚ),
    (∃ p ∈ reserves, p.1 ≤ 0 ∨ p.2 ≤ 0) → multihopGo reserves amount total = 100 := by
  intro reserves
  induction reserves with
  | nil =>
    rintro _ _ ⟨p, hp, _⟩
    simp at hp
  | cons head tail ih =>
    rintro amount total ⟨p, hp, hbad⟩
    obtain ⟨rin, rout⟩ := head
    by_cases hg : rin ≤ 0 ∨ rout ≤ 0
    · simp [multihopGo, hg]
    · rw [multihopGo, if_neg hg]
      rcases List.mem_cons.mp hp with heq | hmem
      · subst heq
        exact absurd hbad hg
      · exact ih _ _ ⟨p, hmem, hbad⟩

/-- Claim C5: `calculate_multihop_slippage` returns `0` on an empty path and on
a non-positive flashloan amount, and returns exactly `100` whenever the path
contains a reserve pair with a non-positive component and the amount is
positive. -/
theorem claim_C5 :
    (∀ flashloan_amount : ℚ, calculate_multihop_slippage [] flashloan_amount = 0)
    ∧ (∀ (reserves : List (ℚ × ℚ)) (flashloan_amount : ℚ), flashloan_amount ≤ 0 →
        calculate_multihop_slippage reserves flashloan_amount = 0)
    ∧ (∀ (reserves : List (ℚ × ℚ)) (flashloan_amount : ℚ), 0 < flashloan_amount →
        (∃ p ∈ reserves, p.1 ≤ 0 ∨ p.2 ≤ 0) →
        calculate_multihop_slippage reserves flashloan_amount = 100) := by
  refine ⟨?_, ?_, ?_⟩
  · intro a
    simp [calculate_multihop_slippage]
  · intro reserves a ha
    simp [calculate_multihop_slippage, ha]
  · intro reserves a ha hbad
    have hne : reserves ≠ [] := by
      rintro rfl
      obtain ⟨p, hp, _⟩ := hbad
      simp at hp
    rw [calculate_multihop_slippage, if_neg (by push_neg; exact ⟨hne, ha⟩)]
    exact multihopGo_invalid reserves a 0 hbad

/-- Witness for claim C5 at concrete inputs: a non-positive amount yields `0`,
and a path containing the invalid pool `(0, 5)` yields exactly `100`. -/
theorem claim_C5_witness :
    ((-1 : ℚ) ≤ 0 ∧ calculate_multihop_slippage [((2:ℚ), (3:ℚ))] (-1) = 0)
    ∧ ((0:ℚ) < 1 ∧ (∃ p ∈ [((0:ℚ), (5:ℚ))], p.1 ≤ 0 ∨ p.2 ≤ 0)
        ∧ calculate_multihop_slippage [((0:ℚ), (5:ℚ))] 1 = 100) :=
  ⟨⟨by norm_num, claim_C5.2.1 _ _ (by norm_num)⟩,
    ⟨by norm_num, ⟨((0:ℚ), (5:ℚ)), by simp, Or.inl le_rfl⟩,
      claim_C5.2.2 _ _ (by norm_num) ⟨((0:ℚ), (5:ℚ)), by simp, Or.inl le_rfl⟩⟩⟩

/-! ### Claim C6 -/

/-- Claim C6: `identify_arbitrage_opportunity` reports the relative price
difference `|p1 - p2| / min p1 p2 * 100` over the spot prices
`reserve_out / reserve_in`, and on any pool pair priced `2.0` versus `2.2`
with a 5% threshold it signals an opportunity with difference at least 5 and
direction 1 (buy the cheaper pool 1). -/
theorem claim_C6 :
    (∀ reserve_in reserve_out : ℚ, 0 < reserve_in →
        calculate_pool_price reserve_in reserve_out = reserve_out / reserve_in)
    ∧ (∀ p1i p1o p2i p2o m : ℚ,
        0 < calculate_pool_price p1i p1o → 0 < calculate_pool_price p2i p2o →
        (identify_arbitrage_opportunity p1i p1o p2i p2o m).2.1 =
          |calculate_pool_price p1i p1o - calculate_pool_price p2i p2o| /
            min (calculate_pool_price p1i p1o) (calculate_pool_price p2i p2o) * 100)
    ∧ (∀ p1i p1o p2i p2o : ℚ,
        calculate_pool_price p1i p1o = 2 → calculate_pool_price p2i p2o = 11/5 →
        (identify_arbitrage_opportunity p1i p1o p2i p2o 5).1 = true ∧
        5 ≤ (identify_arbitrage_opportunity p1i p1o p2i p2o 5).2.1 ∧
        (identify_arbitrage_opportunity p1i p1o p2i p2o 5).2.2 = 1) := by
  refine ⟨?_, ?_, ?_⟩
  · intro rin rout h
    simp [calculate_pool_price, not_le.mpr h]
  · intro p1i p1o p2i p2o m h1 h2
    rw [identify_arbitrage_opportunity,
      if_neg (by push_neg; exact ⟨h1, h2⟩)]
    dsimp only
    split_ifs <;> rfl
  · intro p1i p1o p2i p2o h1 h2
    have habs : |(2:ℚ) - 11/5| = 1/5 := by
      rw [abs_of_neg (by norm_num)]
      norm_num
    have hmin : min (2:ℚ) (11/5) = 2 := min_eq_left (by norm_num)
    rw [identify_arbitrage_opportunity, h1, h2,
      if_neg (by push_neg; constructor <;> norm_num), habs, hmin]
    norm_num

/-! ### Claim C8 -/

/-- Claim C8: whenever both spot prices are positive and their relative
difference is strictly below `min_price_diff_pct`, the full pipeline returns
`(false, 0, 0)` regardless of the price samples and the rest of the config. -/
theorem claim_C8 :
    ∀ (p1i p1o p2i p2o : ℚ) (s1 s2 : List (ℚ × ℚ)) (config : ArbitrageConfig),
    0 < calculate_pool_price p1i p1o → 0 < calculate_pool_price p2i p2o →
    |calculate_pool_price p1i p1o - calculate_pool_price p2i p2o| /
        min (calculate_pool_price p1i p1o) (calculate_pool_price p2i p2o) * 100 <
      config.min_price_diff_pct →
    execute_arbitrage_flow p1i p1o p2i p2o s1 s2 config = (false, 0, 0) := by
  intro p1i p1o p2i p2o s1 s2 config h1 h2 hdiff
  have hido : (identify_arbitrage_opportunity p1i p1o p2i p2o config.min_price_diff_pct).1
      = false := by
    rw [identify_arbitrage_opportunity,
      if_neg (by push_neg; exact ⟨h1, h2⟩),
      if_neg (not_le.mpr hdiff)]
  simp [execute_arbitrage_flow, hido]

/-- Witness for claim C8: two identical pools (price difference `0`) with a
positive threshold make the pipeline return `(false, 0, 0)`. -/
theorem claim_C8_witness :
    (0 < calculate_pool_price 100 200 ∧
      |calculate_pool_price 100 200 - calculate_pool_price 100 200| /
          min (calculate_pool_price 100 200) (calculate_pool_price 100 200) * 100 <
        (ArbitrageConfig.mk 1 (9/10000) 5 10 50).min_price_diff_pct)
    ∧ execute_arbitrage_flow 100 200 100 200 [(0, 2)] [(0, 2)]
        (ArbitrageConfig.mk 1 (9/10000) 5 10 50) = (false, 0, 0) :=
  ⟨⟨by norm_num [calculate_pool_price], by norm_num [calculate_pool_price]⟩,
    claim_C8 100 200 100 200 [(0, 2)] [(0, 2)] (ArbitrageConfig.mk 1 (9/10000) 5 10 50)
      (by norm_num [calculate_pool_price]) (by norm_num [calculate_pool_price])
      (by norm_num [calculate_pool_price])⟩

/-! ### Claim C1 -/

theorem otsGo_spec (reserve_in reserve_out gas_cost min_profit H : ℚ) :
    ∀ (n : Nat) (low high best : ℚ),
    0 ≤ low → low ≤ high → high ≤ H → 0 < high →
    (best = 0 ∨ (0 < best ∧ best ≤ H ∧
      min_profit ≤ tradeProfit reserve_in reserve_out gas_cost best)) →
    (otsGo reserve_in reserve_out gas_cost min_profit n low high best = 0 ∨
      (0 < otsGo reserve_in reserve_out gas_cost min_profit n low high best ∧
       otsGo reserve_in reserve_out gas_cost min_profit n low high best ≤ H ∧
       min_profit ≤ tradeProfit reserve_in reserve_out gas_cost
         (otsGo reserve_in reserve_out gas_cost min_profit n low high best))) := by
  intro n
  induction n with
  | zero =>
    intro low high best _ _ _ _ hb
    simpa [otsGo] using hb
  | succ n ih =>
    intro low high best hl hlh hhH hhpos hb
    rw [otsGo]
    have hmidpos : 0 < (low + high) / 2 := by linarith
    have hmidhigh : (low + high) / 2 ≤ high := by linarith
    have hmidH : (low + high) / 2 ≤ H := le_trans hmidhigh hhH
    have hlowmid : low ≤ (low + high) / 2 := by linarith
    by_cases hrec : min_profit ≤ tradeProfit reserve_in reserve_out gas_cost ((low + high) / 2)
    · simp only [if_pos hrec]
      split
      · exact Or.inr ⟨hmidpos, hmidH, hrec⟩
      · exact ih ((low + high) / 2) high ((low + high) / 2) (le_of_lt hmidpos) hmidhigh hhH
          hhpos (Or.inr ⟨hmidpos, hmidH, hrec⟩)
    · simp only [if_neg hrec]
      split
      · exact hb
      · exact ih low ((low + high) / 2) best hl hlowmid hmidH hmidpos hb

theorem bisectBestGo_spec (profitAt : ℚ → ℚ) (H : ℚ) :
    ∀ (n : Nat) (low high bestA bestP : ℚ),
    0 ≤ low → low ≤ high → high ≤ H → 0 < high →
    ((bestA = 0 ∧ bestP = 0) ∨
      (0 < bestA ∧ bestA ≤ H ∧ bestP = profitAt bestA ∧ 0 < bestP)) →
    (((bisectBestGo profitAt n low high bestA bestP).1 = 0 ∧
        (bisectBestGo profitAt n low high bestA bestP).2 = 0) ∨
      (0 < (bisectBestGo profitAt n low high bestA bestP).1 ∧
       (bisectBestGo profitAt n low high bestA bestP).1 ≤ H ∧
       (bisectBestGo profitAt n low high bestA bestP).2 =
         profitAt (bisectBestGo profitAt n low high bestA bestP).1 ∧
       0 < (bisectBestGo profitAt n low high bestA bestP).2)) := by
  intro n
  induction n with
  | zero =>
    intro low high bestA bestP _ _ _ _ hb
    simpa [bisectBestGo] using hb
  | succ n ih =>
    intro low high bestA bestP hl hlh hhH hhpos hb
    rw [bisectBestGo]
    have hmidpos : 0 < (low + high) / 2 := by linarith
    have hmidhigh : (low + high) / 2 ≤ high := by linarith
    have hmidH : (low + high) / 2 ≤ H := le_trans hmidhigh hhH
    have hlowmid : low ≤ (low + high) / 2 := by linarith
    have hPnonneg : 0 ≤ bestP := by
      rcases hb with ⟨_, h0⟩ | ⟨_, _, _, hpos⟩
      · exact h0.ge
      · exact hpos.le
    have hb2 : (((if bestP < profitAt ((low + high) / 2) then (low + high) / 2 else bestA) = 0 ∧
          (if bestP < profitAt ((low + high) / 2) then profitAt ((low + high) / 2) else bestP) = 0) ∨
        (0 < (if bestP < profitAt ((low + high) / 2) then (low + high) / 2 else bestA) ∧
         (if bestP < profitAt ((low + high) / 2) then (low + high) / 2 else bestA) ≤ H ∧
         (if bestP < profitAt ((low + high) / 2) then profitAt ((low + high) / 2) else bestP) =
           profitAt (if bestP < profitAt ((low + high) / 2) then (low + high) / 2 else bestA) ∧
         0 < (if bestP < profitAt ((low + high) / 2) then profitAt ((low + high) / 2) else bestP))) := by
      by_cases himp : bestP < profitAt ((low + high) / 2)
      · simp only [if_pos himp]
        exact Or.inr ⟨hmidpos, hmidH, by simp, lt_of_le_of_lt hPnonneg himp⟩
      · simp only [if_neg himp]
        exact hb
    by_cases hpos : 0 < profitAt ((low + high) / 2)
    · simp only [if_pos hpos]
      split
      · exact hb2
      · exact ih ((low + high) / 2) high _ _ (le_of_lt hmidpos) hmidhigh hhH hhpos hb2
    · simp only [if_neg hpos]
      split
      · exact hb2
      · exact ih low ((low + high) / 2) _ _ hl hlowmid hmidH hmidpos hb2

/-- Claim C1, amended: with a non-negative `min_profit`, `optimal_trade_size`
returns `0` or a size in range whose computed profit is at least `min_profit`
(hence never negative); the two flashloan optimizers unconditionally return
`0` or a size in range whose computed profit is strictly positive, so each
returns `0` whenever no positive-profit size exists in the explored range. -/
theorem claim_C1 :
    (∀ reserve_in reserve_out gas_cost min_profit : ℚ,
      0 < reserve_in → 0 < reserve_out → 0 ≤ min_profit →
      (optimal_trade_size reserve_in reserve_out gas_cost min_profit = 0 ∨
        (0 < optimal_trade_size reserve_in reserve_out gas_cost min_profit ∧
         optimal_trade_size reserve_in reserve_out gas_cost min_profit ≤ reserve_in * (1/10) ∧
         min_profit ≤ tradeProfit reserve_in reserve_out gas_cost
           (optimal_trade_size reserve_in reserve_out gas_cost min_profit) ∧
         0 ≤ tradeProfit reserve_in reserve_out gas_cost
           (optimal_trade_size reserve_in reserve_out gas_cost min_profit))))
    ∧ (∀ reserve_in_buy reserve_out_buy reserve_in_sell reserve_out_sell flashloan_fee gas_cost : ℚ,
      calculate_flashloan_amount reserve_in_buy reserve_out_buy reserve_in_sell reserve_out_sell
          flashloan_fee gas_cost = 0 ∨
        (0 < calculate_flashloan_amount reserve_in_buy reserve_out_buy reserve_in_sell
            reserve_out_sell flashloan_fee gas_cost ∧
         calculate_flashloan_amount reserve_in_buy reserve_out_buy reserve_in_sell reserve_out_sell
             flashloan_fee gas_cost ≤
           min (reserve_in_buy * (3/10)) (reserve_in_sell * (3/10)) ∧
         0 < flashloanProfit reserve_in_buy reserve_out_buy reserve_in_sell reserve_out_sell
           flashloan_fee gas_cost
           (calculate_flashloan_amount reserve_in_buy reserve_out_buy reserve_in_sell
             reserve_out_sell flashloan_fee gas_cost)))
    ∧ (∀ liquidity sqrt_price_buy sqrt_price_sell flashloan_fee gas_cost : ℚ,
      calculate_flashloan_amount_v3 liquidity sqrt_price_buy sqrt_price_sell flashloan_fee
          gas_cost = 0 ∨
        (0 < calculate_flashloan_amount_v3 liquidity sqrt_price_buy sqrt_price_sell flashloan_fee
            gas_cost ∧
         calculate_flashloan_amount_v3 liquidity sqrt_price_buy sqrt_price_sell flashloan_fee
             gas_cost ≤ liquidity * (3/10) ∧
         0 < flashloanProfitV3 liquidity sqrt_price_buy sqrt_price_sell flashloan_fee gas_cost
           (calculate_flashloan_amount_v3 liquidity sqrt_price_buy sqrt_price_sell flashloan_fee
             gas_cost))) := by
  refine ⟨?_, ?_, ?_⟩
  · intro rin rout g mp hrin hrout hmp
    rw [optimal_trade_size, if_neg (by push_neg; exact ⟨hrin, hrout⟩)]
    have hhigh : 0 < rin * (1/10) := by linarith
    have h := otsGo_spec rin rout g mp (rin * (1/10)) 50 0 (rin * (1/10)) 0
      le_rfl (le_of_lt hhigh) le_rfl hhigh (Or.inl rfl)
    rcases h with h0 | ⟨hpos, hle, hprof⟩
    · exact Or.inl h0
    · exact Or.inr ⟨hpos, hle, hprof, le_trans hmp hprof⟩
  · intro rib rob ris ros fee g
    rw [calculate_flashloan_amount]
    split
    · exact Or.inl rfl
    · rename_i hguard
      push_neg at hguard
      obtain ⟨h1, h2, h3, h4⟩ := hguard
      have hmax : 0 < min (rib * (3/10)) (ris * (3/10)) := by
        apply lt_min <;> linarith
      have h := bisectBestGo_spec
        (flashloanProfit rib rob ris ros fee g) (min (rib * (3/10)) (ris * (3/10)))
        100 0 (min (rib * (3/10)) (ris * (3/10))) 0 0
        le_rfl (le_of_lt hmax) le_rfl hmax (Or.inl ⟨rfl, rfl⟩)
      dsimp only
      rcases h with ⟨hA, hP⟩ | ⟨hApos, hAle, hPeq, hPpos⟩
      · rw [hP]
        simp
      · rw [if_pos hPpos]
        exact Or.inr ⟨hApos, hAle, hPeq ▸ hPpos⟩
  · intro L spb sps fee g
    rw [calculate_flashloan_amount_v3]
    split
    · exact Or.inl rfl
    · rename_i hguard
      push_neg at hguard
      obtain ⟨h1, h2, h3⟩ := hguard
      have hmax : 0 < L * (3/10) := by linarith
      have h := bisectBestGo_spec
        (flashloanProfitV3 L spb sps fee g) (L * (3/10))
        100 0 (L * (3/10)) 0 0
        le_rfl (le_of_lt hmax) le_rfl hmax (Or.inl ⟨rfl, rfl⟩)
      dsimp only
      rcases h with ⟨hA, hP⟩ | ⟨hApos, hAle, hPeq, hPpos⟩
      · rw [hP]
        simp
      · rw [if_pos hPpos]
        exact Or.inr ⟨hApos, hAle, hPeq ▸ hPpos⟩

/-- Counterexample to claim C1 as stated: with `min_profit = -1000` (the claim
quantifies over every `min_profit`), `optimal_trade_size` on an unprofitable
pool returns the nonzero size `655355/65536`, whose computed net profit is
negative; since profit is negative at every size here, the claim's "return 0
when no positive-profit size exists" is violated as well. -/
theorem claim_C1_counterexample :
    optimal_trade_size 100 100 1 (-1000) = 655355/65536 ∧
    (655355/65536 : ℚ) ≠ 0 ∧
    tradeProfit 100 100 1 (655355/65536) < 0 := by
  refine ⟨?_, by norm_num, ?_⟩
  · norm_num [optimal_trade_size, otsGo, tradeProfit]
  · norm_num [tradeProfit]

/-- Witness for the amended claim C1 at concrete inputs. -/
theorem claim_C1_witness :
    ((0:ℚ) < 100 ∧ (0:ℚ) < 100 ∧ (0:ℚ) ≤ 0) ∧
    (optimal_trade_size 100 100 1 0 = 0 ∨
      (0 < optimal_trade_size 100 100 1 0 ∧
       optimal_trade_size 100 100 1 0 ≤ 100 * (1/10) ∧
       (0:ℚ) ≤ tradeProfit 100 100 1 (optimal_trade_size 100 100 1 0) ∧
       0 ≤ tradeProfit 100 100 1 (optimal_trade_size 100 100 1 0))) :=
  ⟨⟨by norm_num, by norm_num, le_rfl⟩,
    claim_C1.1 100 100 1 0 (by norm_num) (by norm_num) le_rfl⟩

/-! ### Claim C9 -/

theorem simGo_length (flashloan_fee : ℚ) :
    ∀ (paths : List (List (ℚ × ℚ))) (amounts gases : List ℚ) (idx : Nat),
    (simGo flashloan_fee idx paths amounts gases).length
      = min paths.length (min amounts.length gases.length) := by
  intro paths
  induction paths with
  | nil =>
    intro amounts gases idx
    simp [simGo]
  | cons p ps ih =>
    intro amounts gases idx
    cases amounts with
    | nil => simp [simGo]
    | cons a amounts =>
      cases gases with
      | nil => simp [simGo]
      | cons g gases =>
        simp only [simGo, List.length_cons, ih]
        omega

theorem simGo_getElem (flashloan_fee : ℚ) :
    ∀ (paths : List (List (ℚ × ℚ))) (amounts gases : List ℚ) (idx i : Nat),
    (simGo flashloan_fee idx paths amounts gases)[i]?
      = if i < min paths.length (min amounts.length gases.length)
        then some (pathTriple (paths.getD i []) (amounts.getD i 0) flashloan_fee
          (gases.getD i 0) (idx + i))
        else none := by
  intro paths
  induction paths with
  | nil =>
    intro amounts gases idx i
    simp [simGo]
  | cons p ps ih =>
    intro amounts gases idx i
    cases amounts with
    | nil => simp [simGo]
    | cons a amounts =>
      cases gases with
      | nil => simp [simGo]
      | cons g gases =>
        cases i with
        | zero =>
          simp only [simGo, List.getElem?_cons_zero, List.length_cons, List.getD_cons_zero,
            Nat.add_zero]
          rw [if_pos (by omega)]
        | succ i =>
          simp only [simGo, List.getElem?_cons_succ, ih, List.length_cons, List.getD_cons_succ]
          have harith : idx + 1 + i = idx + (i + 1) := by omega
          rw [harith]
          by_cases hlt : i < min ps.length (min amounts.length gases.length)
          · rw [if_pos hlt, if_pos (by omega)]
          · rw [if_neg hlt, if_neg (by omega)]

/-- Claim C9: the batch path simulator returns exactly one `(profit, slippage,
index)` triple per path in the valid prefix, in input order; its output length
is the largest prefix of the paths list for which both a flashloan amount and
a gas cost entry exist. -/
theorem claim_C9 :
    ∀ (paths : List (List (ℚ × ℚ))) (flashloan_amounts : List ℚ)
      (flashloan_fee : ℚ) (gas_costs : List ℚ),
    (simulate_parallel_flashloan_paths paths flashloan_amounts flashloan_fee gas_costs).length
      = min paths.length (min flashloan_amounts.length gas_costs.length)
    ∧ ∀ i : Nat,
      (simulate_parallel_flashloan_paths paths flashloan_amounts flashloan_fee gas_costs)[i]?
        = if i < min paths.length (min flashloan_amounts.length gas_costs.length)
          then some (pathTriple (paths.getD i []) (flashloan_amounts.getD i 0) flashloan_fee
            (gas_costs.getD i 0) i)
          else none := by
  intro paths amounts fee gases
  refine ⟨simGo_length fee paths amounts gases 0, fun i => ?_⟩
  have h := simGo_getElem fee paths amounts gases 0 i
  simpa [simulate_parallel_flashloan_paths] using h

/-! ### Claim C10 -/

theorem calculate_twap_eq_posSteps (price_samples : List (ℚ × ℚ)) :
    calculate_twap price_samples =
      if 0 < twapTotalTime (posSteps price_samples)
      then twapWeightedSum (posSteps price_samples) / twapTotalTime (posSteps price_samples)
      else 0 := by
  by_cases hlen : price_samples.length < 2
  · rw [calculate_twap, if_pos hlen]
    have hsteps : twapSteps price_samples = [] := by
      match price_samples, hlen with
      | [], _ => rfl
      | [x], _ => rfl
    rw [posSteps, hsteps]
    simp [twapTotalTime]
  · rw [calculate_twap, if_neg hlen]
    rw [foldl_if_eq_foldl_filter (fun s => 0 < stepDiff s)
        (fun acc s => acc + s.1.2 * stepDiff s) (twapSteps price_samples) 0,
      foldl_if_eq_foldl_filter (fun s => 0 < stepDiff s)
        (fun acc s => acc + stepDiff s) (twapSteps price_samples) 0]
    rfl

/-- Claim C10: `calculate_twap` accumulates only the consecutive sample pairs
with strictly positive time difference (out-of-order or duplicate timestamps
contribute nothing), and returns `0` whenever no pair has a positive time
difference, in particular for fewer than 2 samples. -/
theorem claim_C10 :
    (∀ price_samples : List (ℚ × ℚ),
      calculate_twap price_samples =
        if 0 < twapTotalTime (posSteps price_samples)
        then twapWeightedSum (posSteps price_samples) / twapTotalTime (posSteps price_samples)
        else 0)
    ∧ (∀ price_samples : List (ℚ × ℚ), posSteps price_samples = [] →
        calculate_twap price_samples = 0)
    ∧ (∀ price_samples : List (ℚ × ℚ), price_samples.length < 2 →
        calculate_twap price_samples = 0) := by
  refine ⟨calculate_twap_eq_posSteps, ?_, ?_⟩
  · intro price_samples hempty
    rw [calculate_twap_eq_posSteps, hempty]
    simp [twapTotalTime]
  · intro price_samples hlen
    rw [calculate_twap, if_pos hlen]

/-- Witness for claim C10 at concrete inputs: two samples with equal timestamps
have no positive-difference pair and give TWAP `0`; a single sample gives `0`. -/
theorem claim_C10_witness :
    (posSteps [((5:ℚ), (10:ℚ)), ((5:ℚ), (20:ℚ))] = [] ∧
      calculate_twap [((5:ℚ), (10:ℚ)), ((5:ℚ), (20:ℚ))] = 0)
    ∧ ([((0:ℚ), (7:ℚ))].length < 2 ∧ calculate_twap [((0:ℚ), (7:ℚ))] = 0) :=
  ⟨⟨by norm_num [posSteps, twapSteps, stepDiff, List.filter],
    claim_C10.2.1 _ (by norm_num [posSteps, twapSteps, stepDiff, List.filter])⟩,
   ⟨by norm_num, claim_C10.2.2 _ (by norm_num)⟩⟩

/-! ### Claim C2 -/

/-- Claim C2: the batch evaluator produces exactly one
`(should_execute, optimal_amount, profit)` row per valid (length at least 4)
input, in input order, and the per-tuple logic it applies agrees with the full
pipeline `execute_arbitrage_flow` whenever the TWAP validation step passes. -/
theorem claim_C2 :
    (∀ (opportunities : List (List ℚ)) (config : ArbitrageConfig),
      batch_evaluate_opportunities opportunities config
        = (oppTuples opportunities).map (fun t =>
            tripleToVec (evaluate_opportunity_no_twap t.1 t.2.1 t.2.2.1 t.2.2.2 config)))
    ∧ (∀ (opportunities : List (List ℚ)) (config : ArbitrageConfig) (i : Nat),
      (batch_evaluate_opportunities opportunities config)[i]?
        = ((oppTuples opportunities)[i]?).map (fun t =>
            tripleToVec (evaluate_opportunity_no_twap t.1 t.2.1 t.2.2.1 t.2.2.2 config)))
    ∧ (∀ (p1i p1o p2i p2o : ℚ) (s1 s2 : List (ℚ × ℚ)) (config : ArbitrageConfig),
      validate_with_twap (calculate_pool_price p1i p1o) (calculate_twap s1)
        config.max_twap_deviation_pct = true →
      validate_with_twap (calculate_pool_price p2i p2o) (calculate_twap s2)
        config.max_twap_deviation_pct = true →
      execute_arbitrage_flow p1i p1o p2i p2o s1 s2 config
        = evaluate_opportunity_no_twap p1i p1o p2i p2o config) := by
  refine ⟨?_, ?_, ?_⟩
  · intro opportunities config
    rw [batch_evaluate_opportunities, batch_evaluate_opportunities_math, List.map_map]
    rfl
  · intro opportunities config i
    rw [batch_evaluate_opportunities, batch_evaluate_opportunities_math, List.map_map,
      List.getElem?_map]
    rfl
  · intro p1i p1o p2i p2o s1 s2 config h1 h2
    unfold execute_arbitrage_flow evaluate_opportunity_no_twap
    by_cases hido : (identify_arbitrage_opportunity p1i p1o p2i p2o config.min_price_diff_pct).1
        = false
    · simp only [if_pos hido]
    · simp only [if_neg hido]
      by_cases hdir : (identify_arbitrage_opportunity p1i p1o p2i p2o
          config.min_price_diff_pct).2.2 = 1
      · simp only [if_pos hdir, h1]
        simp
      · simp only [if_neg hdir, h2]
        simp

/-- Witness for claim C2: a concrete pool pair and sample lists on which both
TWAP validations pass, so the full pipeline agrees with the TWAP-free batch
logic there. -/
theorem claim_C2_witness :
    (validate_with_twap (calculate_pool_price 100 200)
        (calculate_twap [((0:ℚ), 2), (10, 2)])
        (ArbitrageConfig.mk 1 (9/10000) 5 10 50).max_twap_deviation_pct = true)
    ∧ (validate_with_twap (calculate_pool_price 100 220)
        (calculate_twap [((0:ℚ), 11/5), (10, 11/5)])
        (ArbitrageConfig.mk 1 (9/10000) 5 10 50).max_twap_deviation_pct = true)
    ∧ execute_arbitrage_flow 100 200 100 220 [((0:ℚ), 2), (10, 2)]
        [((0:ℚ), 11/5), (10, 11/5)] (ArbitrageConfig.mk 1 (9/10000) 5 10 50)
      = evaluate_opportunity_no_twap 100 200 100 220 (ArbitrageConfig.mk 1 (9/10000) 5 10 50) :=
  ⟨by norm_num [validate_with_twap, calculate_twap, calculate_pool_price, twapSteps, stepDiff,
      List.zip],
   by norm_num [validate_with_twap, calculate_twap, calculate_pool_price, twapSteps, stepDiff,
      List.zip],
   claim_C2.2.2 100 200 100 220 [((0:ℚ), 2), (10, 2)] [((0:ℚ), 11/5), (10, 11/5)]
     (ArbitrageConfig.mk 1 (9/10000) 5 10 50)
     (by norm_num [validate_with_twap, calculate_twap, calculate_pool_price, twapSteps, stepDiff,
        List.zip])
     (by norm_num [validate_with_twap, calculate_twap, calculate_pool_price, twapSteps, stepDiff,
        List.zip])⟩

/-- Witness for claim C6 at the concrete reserves `(1000000, 2000000)` and
`(1000000, 2200000)`, whose spot prices are `2.0` and `2.2`. -/
theorem claim_C6_witness :
    ((0:ℚ) < 1000000 ∧ calculate_pool_price 1000000 2000000 = 2000000 / 1000000)
    ∧ (0 < calculate_pool_price 1000000 2000000 ∧ 0 < calculate_pool_price 1000000 2200000 ∧
       (identify_arbitrage_opportunity 1000000 2000000 1000000 2200000 5).2.1 =
         |calculate_pool_price 1000000 2000000 - calculate_pool_price 1000000 2200000| /
           min (calculate_pool_price 1000000 2000000) (calculate_pool_price 1000000 2200000) * 100)
    ∧ (calculate_pool_price 1000000 2000000 = 2 ∧ calculate_pool_price 1000000 2200000 = 11/5 ∧
       (identify_arbitrage_opportunity 1000000 2000000 1000000 2200000 5).1 = true ∧
       5 ≤ (identify_arbitrage_opportunity 1000000 2000000 1000000 2200000 5).2.1 ∧
       (identify_arbitrage_opportunity 1000000 2000000 1000000 2200000 5).2.2 = 1) :=
  ⟨⟨by norm_num, claim_C6.1 1000000 2000000 (by norm_num)⟩,
   ⟨by norm_num [calculate_pool_price], by norm_num [calculate_pool_price],
    claim_C6.2.1 1000000 2000000 1000000 2200000 5 (by norm_num [calculate_pool_price])
      (by norm_num [calculate_pool_price])⟩,
   ⟨by norm_num [calculate_pool_price], by norm_num [calculate_pool_price],
    claim_C6.2.2 1000000 2000000 1000000 2200000 (by norm_num [calculate_pool_price])
      (by norm_num [calculate_pool_price])⟩⟩
